import Mathlib

/-!
Verification of `pcaudiolib-example` (`src/main.cpp`) against its design
specification.

The program is shallowly embedded as a pure function from a run
environment (command-line shape, whether `fopen` succeeds, the file
size, the handle returned by `create_audio_device_object`, and the
backend error codes for open / each write / drain) to an outcome: the
ordered trace of observable events (backend calls, diagnostic output)
and the process exit status.

C++ semantics reflected by the embedding:

* `std::exit` (called by `pcaudiolib::throw_if_error` on a non-zero
  code) performs normal program termination without invoking the
  destructors of objects with automatic storage duration
  ([basic.start.term]); hence on that path no guard destructor runs.
* A normal return from `main` destroys local objects in reverse
  declaration order: `audio_sink` (stream close), then `audio_device`
  (device destroy), then `test_file` (file close).
* `std::fread` of `count` one-byte objects from a regular file with
  `remaining` unread bytes returns `min count remaining`.
-/

namespace PCAudioLibExample

/-- Observable events of one execution of the program.  A device handle
(`audio_object*`) is modelled as `Option Nat`, `none` standing for a
null pointer. -/
inductive Ev where
  | fopenCall : Ev
  | usageText : Ev
  | errLine : String → Ev
  | perrorOut : Ev
  | createDev : Option Nat → Ev
  | openCall : Option Nat → Ev
  | writeCall : Nat → Ev
  | drainCall : Ev
  | closeCall : Ev
  | destroyCall : Ev
  | fcloseCall : Ev
deriving DecidableEq, Repr

/-- Process exit status. -/
inductive ExitStatus where
  | success : ExitStatus
  | failure : ExitStatus
deriving DecidableEq, Repr

/-- Result of an execution: event trace and exit status. -/
structure Outcome where
  trace : List Ev
  exit : ExitStatus
deriving DecidableEq, Repr

/-- The run environment: program inputs plus the responses of the
external collaborators (file system and audio backend).  `writeCode i`
is the error code the backend returns for the `i`-th write call;
`strerror` models `audio_object_strerror` for the run's device. -/
structure Env where
  argc : Nat
  filename : String
  fileOpens : Bool
  fileSize : Nat
  deviceHandle : Option Nat
  openCode : Int
  writeCode : Nat → Int
  drainCode : Int
  strerror : Int → String

/-- `pcaudiolib::throw_if_error` (`src/main.cpp:62`): zero is no error
and has no effect; a non-zero code prints the backend error text as one
line to `stderr` and calls `std::exit(EXIT_FAILURE)`.  The `Bool`
component is `true` exactly when the process terminates here;
`std::exit` runs no destructors of automatic objects. -/
def throw_if_error (strerror : Int → String) (error_code : Int) :
    List Ev × Bool :=
  if error_code ≠ 0 then ([Ev.errLine (strerror error_code)], true)
  else ([], false)

/-- `rate` in `main` (`src/main.cpp:189`). -/
def rate : Nat := 44100

/-- `buffer_size_in_bytes` in `main` (`src/main.cpp:193`): a two-second
buffer. -/
def buffer_size_in_bytes : Nat := rate * 2

/-- The successive `std::fread` return values for a file with `S`
unread bytes: each iteration reads `min buffer_size_in_bytes S` bytes
until nothing remains. -/
def chunkSizes (S : Nat) : List Nat :=
  if h : min buffer_size_in_bytes S = 0 then []
  else
    min buffer_size_in_bytes S :: chunkSizes (S - min buffer_size_in_bytes S)
termination_by S
decreasing_by
  have hle : min buffer_size_in_bytes S ≤ S := Nat.min_le_right _ _
  omega

/-- The `while (true)` read/write loop of `main` (`src/main.cpp:197`):
read up to `buffer_size_in_bytes` bytes; a read count of zero (or less)
breaks the loop; otherwise `audio_object_write` is called with exactly
the bytes read and its code is checked through `throw_if_error`.
`remaining` is the number of unread bytes left in the file, `idx` the
index of the next write call.  The `Bool` component records termination
through `std::exit`. -/
def playbackLoop (strerror : Int → String) (writeCode : Nat → Int)
    (remaining idx : Nat) : List Ev × Bool :=
  if h : min buffer_size_in_bytes remaining = 0 then ([], false)
  else
    if (throw_if_error strerror (writeCode idx)).2 then
      (Ev.writeCall (min buffer_size_in_bytes remaining) ::
        (throw_if_error strerror (writeCode idx)).1, true)
    else
      (Ev.writeCall (min buffer_size_in_bytes remaining) ::
        ((throw_if_error strerror (writeCode idx)).1 ++
          (playbackLoop strerror writeCode
            (remaining - min buffer_size_in_bytes remaining) (idx + 1)).1),
       (playbackLoop strerror writeCode
         (remaining - min buffer_size_in_bytes remaining) (idx + 1)).2)
termination_by remaining
decreasing_by
  all_goals
    have hle : min buffer_size_in_bytes remaining ≤ remaining :=
      Nat.min_le_right _ _
    omega

/-- `pcaudiolib::stream` constructor (`src/main.cpp:142`): calls
`audio_object_open` on the referenced device, then checks the returned
code through `throw_if_error`.  The `Bool` component is `true` when the
constructor terminated the process. -/
def stream_ctor (dev : Option Nat) (strerror : Int → String)
    (openCode : Int) : List Ev × Bool :=
  (Ev.openCall dev :: (throw_if_error strerror openCode).1,
   (throw_if_error strerror openCode).2)

/-- `pcaudiolib::stream` destructor (`src/main.cpp:149`): calls
`audio_object_close` unconditionally; the wrapper ignores any result of
`close`, so by its type no diagnostic and no termination can come out
of it. -/
def stream_dtor : List Ev := [Ev.closeCall]

/-- Modelled from the spec: `boni::auto_handle` with
`pcaudiolib::impl::device_deleter` (`src/main.cpp:19` and
`src/main.cpp:54`); the class `boni::auto_handle` itself lives in
`boni.hpp`, which is not among the repository sources.  Per §4.2 the
guard invokes the backend destroy operation exactly once on scope exit
and "Must tolerate being constructed from a null handle — destruction
must be a safe no-op in that case". -/
def deviceDtor : Option Nat → List Ev
  | none => []
  | some _ => [Ev.destroyCall]

/-- Modelled from the spec: `boni::file` (`src/main.cpp:177`) lives in
`boni.hpp`, which is not among the repository sources.  Per §4.1 it
releases the byte-stream handle via the matching close primitive on
scope exit, a no-op if the handle is null; the argument is `true` when
the wrapped `FILE*` is non-null. -/
def fileDtor : Bool → List Ev
  | false => []
  | true => [Ev.fcloseCall]

/-- A C++ scope holding a `pcaudiolib::stream` built on device `dev`:
the constructor runs first; if it terminates the process the scope
never finishes; otherwise the scope body runs — finishing either
normally or by a propagating exception (`bodyThrows`) — and the
destructor runs on both forms of scope exit, so the result does not
depend on `bodyThrows`. -/
def streamScope (dev : Option Nat) (strerror : Int → String)
    (openCode : Int) (body : List Ev) (bodyThrows : Bool) : List Ev :=
  if (stream_ctor dev strerror openCode).2 then
    (stream_ctor dev strerror openCode).1
  else
    (stream_ctor dev strerror openCode).1 ++ body ++ stream_dtor

/-- A C++ scope holding a `pcaudiolib::device` wrapping handle `h`: the
guard's constructor performs no backend call; the body runs (normally
or throwing, `bodyThrows`), and the deleter runs on both forms of scope
exit, so the result does not depend on `bodyThrows`. -/
def deviceScope (h : Option Nat) (body : List Ev) (bodyThrows : Bool) :
    List Ev :=
  body ++ deviceDtor h

/-- `main` (`src/main.cpp:163`) as a function of the run environment.
Branches, in source order: argument-count check (usage text, success
exit); `fopen` failure (diagnostic with filename, `perror`, failure
exit); device creation and stream open (a non-zero open code exits);
the playback loop (a non-zero write code exits); `audio_object_drain`
plus its error check; and on a normal return the three destructors in
reverse declaration order.  Every `std::exit` path skips all
destructors. -/
def run (env : Env) : Outcome :=
  if env.argc ≠ 2 then
    { trace := [Ev.usageText], exit := ExitStatus.success }
  else if env.fileOpens = false then
    { trace := [Ev.fopenCall,
                Ev.errLine ("Unable to load: " ++ env.filename),
                Ev.perrorOut],
      exit := ExitStatus.failure }
  else
    if (stream_ctor env.deviceHandle env.strerror env.openCode).2 then
      { trace := Ev.fopenCall :: Ev.createDev env.deviceHandle ::
          (stream_ctor env.deviceHandle env.strerror env.openCode).1,
        exit := ExitStatus.failure }
    else
      if (playbackLoop env.strerror env.writeCode env.fileSize 0).2 then
        { trace := Ev.fopenCall :: Ev.createDev env.deviceHandle ::
            (stream_ctor env.deviceHandle env.strerror env.openCode).1 ++
            (playbackLoop env.strerror env.writeCode env.fileSize 0).1,
          exit := ExitStatus.failure }
      else
        if (throw_if_error env.strerror env.drainCode).2 then
          { trace := Ev.fopenCall :: Ev.createDev env.deviceHandle ::
              (stream_ctor env.deviceHandle env.strerror env.openCode).1 ++
              (playbackLoop env.strerror env.writeCode env.fileSize 0).1 ++
              Ev.drainCall :: (throw_if_error env.strerror env.drainCode).1,
            exit := ExitStatus.failure }
        else
          { trace := Ev.fopenCall :: Ev.createDev env.deviceHandle ::
              (stream_ctor env.deviceHandle env.strerror env.openCode).1 ++
              (playbackLoop env.strerror env.writeCode env.fileSize 0).1 ++
              Ev.drainCall :: (throw_if_error env.strerror env.drainCode).1 ++
              stream_dtor ++ deviceDtor env.deviceHandle ++ fileDtor true,
            exit := ExitStatus.success }

/-- Event classifiers. -/
def isWrite : Ev → Bool
  | Ev.writeCall _ => true
  | _ => false

def isDrain : Ev → Bool
  | Ev.drainCall => true
  | _ => false

def isOpen : Ev → Bool
  | Ev.openCall _ => true
  | _ => false

def isClose : Ev → Bool
  | Ev.closeCall => true
  | _ => false

def isDestroy : Ev → Bool
  | Ev.destroyCall => true
  | _ => false

def isFclose : Ev → Bool
  | Ev.fcloseCall => true
  | _ => false

def isErrLine : Ev → Bool
  | Ev.errLine _ => true
  | _ => false

/-- A release event: stream close, device destroy, or file close. -/
def isRelease (e : Ev) : Bool := isClose e || isDestroy e || isFclose e

/-- An acquisition event: file open, device creation, stream open. -/
def isAcq : Ev → Bool
  | Ev.fopenCall => true
  | Ev.createDev _ => true
  | Ev.openCall _ => true
  | _ => false

/-- A call into the audio backend. -/
def isBackend : Ev → Bool
  | Ev.createDev _ => true
  | Ev.openCall _ => true
  | Ev.writeCall _ => true
  | Ev.drainCall => true
  | Ev.closeCall => true
  | Ev.destroyCall => true
  | _ => false

/-- The byte counts of the write calls in a trace, in order. -/
def writeSizes (l : List Ev) : List Nat :=
  l.filterMap fun e =>
    match e with
    | Ev.writeCall n => some n
    | _ => none

/-! ### Basic lemmas about the embedded operations -/

theorem buffer_size_eq : buffer_size_in_bytes = 88200 := by
  norm_num [buffer_size_in_bytes, rate]

theorem throw_if_error_zero (se : Int → String) :
    throw_if_error se 0 = ([], false) := by
  simp [throw_if_error]

theorem throw_if_error_of_ne (se : Int → String) (c : Int) (h : c ≠ 0) :
    throw_if_error se c = ([Ev.errLine (se c)], true) := by
  simp [throw_if_error, h]

theorem chunkSizes_nil : chunkSizes 0 = [] := by
  rw [chunkSizes]
  norm_num [Nat.min_def, buffer_size_eq]

theorem chunkSizes_length (S : Nat) :
    (chunkSizes S).length =
      (S + buffer_size_in_bytes - 1) / buffer_size_in_bytes := by
  induction S using Nat.strong_induction_on with
  | _ S ih =>
    by_cases h : min buffer_size_in_bytes S = 0
    · have hS : S = 0 := by
        rw [buffer_size_eq] at h
        omega
      subst hS
      rw [chunkSizes_nil, buffer_size_eq]
      norm_num
    · rw [chunkSizes]
      simp only [h, dite_false, List.length_cons]
      have hlt : S - min buffer_size_in_bytes S < S := by
        rw [buffer_size_eq] at h ⊢
        omega
      rw [ih _ hlt]
      rw [buffer_size_eq] at h ⊢
      omega

theorem chunkSizes_last (S : Nat) :
    (chunkSizes S).getLast? =
      if S = 0 then none
      else some (if S % buffer_size_in_bytes = 0 then buffer_size_in_bytes
        else S % buffer_size_in_bytes) := by
  induction S using Nat.strong_induction_on with
  | _ S ih =>
    by_cases h : min buffer_size_in_bytes S = 0
    · have hS : S = 0 := by
        rw [buffer_size_eq] at h
        omega
      subst hS
      rw [chunkSizes_nil]
      simp
    · rw [chunkSizes]
      simp only [h, dite_false]
      rw [buffer_size_eq] at h ⊢
      by_cases h2 : S ≤ 88200
      · have hmin : min 88200 S = S := by omega
        rw [hmin, Nat.sub_self, chunkSizes_nil]
        by_cases hm : S % 88200 = 0
        · have hS : S = 88200 := by omega
          subst hS
          simp
        · have hne0 : ¬ S = 0 := by omega
          simp only [List.getLast?_singleton, hne0, if_false, hm]
          have hx : S % 88200 = S := by omega
          rw [hx]
      · have hne : chunkSizes (S - min 88200 S) ≠ [] := by
          rw [chunkSizes]
          have hx : ¬ min buffer_size_in_bytes (S - min 88200 S) = 0 := by
            rw [buffer_size_eq]
            omega
          simp [hx]
        obtain ⟨b, l, heq⟩ := List.exists_cons_of_ne_nil hne
        have hrec := ih (S - min 88200 S) (by omega)
        rw [buffer_size_eq] at hrec
        rw [heq, List.getLast?_cons_cons, ← heq, hrec]
        have hmin : min 88200 S = 88200 := by omega
        rw [hmin]
        have hp1 : ¬ (S - 88200 = 0) := by omega
        have hp2 : ¬ (S = 0) := by omega
        simp only [hp1, hp2, if_false]
        have hmod : (S - 88200) % 88200 = S % 88200 := by omega
        rw [hmod]

theorem playbackLoop_ok (se : Int → String) (wc : Nat → Int)
    (hwc : ∀ i, wc i = 0) :
    ∀ S idx, playbackLoop se wc S idx =
      ((chunkSizes S).map Ev.writeCall, false) := by
  intro S
  induction S using Nat.strong_induction_on with
  | _ S ih =>
    intro idx
    by_cases h : min buffer_size_in_bytes S = 0
    · rw [playbackLoop, chunkSizes]
      simp [h]
    · rw [playbackLoop, chunkSizes]
      simp only [h, dite_false]
      rw [hwc idx, throw_if_error_zero]
      have hle : min buffer_size_in_bytes S ≤ S := Nat.min_le_right _ _
      rw [ih (S - min buffer_size_in_bytes S) (by omega) (idx + 1)]
      simp

theorem playbackLoop_mem (se : Int → String) (wc : Nat → Int) :
    ∀ S idx e, e ∈ (playbackLoop se wc S idx).1 →
      (∃ n, e = Ev.writeCall n ∧ 1 ≤ n) ∨ isErrLine e = true := by
  intro S
  induction S using Nat.strong_induction_on with
  | _ S ih =>
    intro idx e he
    by_cases h : min buffer_size_in_bytes S = 0
    · rw [playbackLoop] at he
      simp [h] at he
    · rw [playbackLoop] at he
      simp only [h, dite_false] at he
      by_cases hc : wc idx = 0
      · rw [hc, throw_if_error_zero] at he
        simp only [Bool.false_eq_true, if_false, List.nil_append,
          List.mem_cons] at he
        rcases he with he | he
        · exact Or.inl ⟨_, he, by omega⟩
        · have hle : min buffer_size_in_bytes S ≤ S := Nat.min_le_right _ _
          exact ih (S - min buffer_size_in_bytes S) (by omega) (idx + 1) e he
      · rw [throw_if_error_of_ne se _ hc] at he
        simp only [if_true, List.mem_cons, List.mem_singleton] at he
        rcases he with he | he
        · exact Or.inl ⟨_, he, by omega⟩
        · simp at he
          subst he
          exact Or.inr rfl

theorem mem_throw_if_error (se : Int → String) (c : Int) (e : Ev)
    (he : e ∈ (throw_if_error se c).1) : isErrLine e = true := by
  unfold throw_if_error at he
  split at he
  · simp at he
    subst he
    rfl
  · simp at he

/-- The outcome of a fully successful run: usage check passed, file
opened, open / every write / drain all return zero. -/
theorem run_ok (env : Env) (h2 : env.argc = 2) (hf : env.fileOpens = true)
    (ho : env.openCode = 0) (hw : ∀ i, env.writeCode i = 0)
    (hd : env.drainCode = 0) :
    run env = ⟨[Ev.fopenCall, Ev.createDev env.deviceHandle,
        Ev.openCall env.deviceHandle] ++
        (chunkSizes env.fileSize).map Ev.writeCall ++
        [Ev.drainCall, Ev.closeCall] ++ deviceDtor env.deviceHandle ++
        [Ev.fcloseCall],
      ExitStatus.success⟩ := by
  have hloop := playbackLoop_ok env.strerror env.writeCode hw env.fileSize 0
  unfold run
  rw [ho, hd]
  simp [h2, hf, stream_ctor, throw_if_error_zero, hloop, stream_dtor, fileDtor]

/-- One loop iteration whose write succeeds: a write call of the bytes
read, then the rest of the loop. -/
theorem playbackLoop_step_ok (se : Int → String) (wc : Nat → Int)
    (S idx : Nat) (h : ¬ min buffer_size_in_bytes S = 0)
    (hc : wc idx = 0) :
    playbackLoop se wc S idx =
      (Ev.writeCall (min buffer_size_in_bytes S) ::
        (playbackLoop se wc (S - min buffer_size_in_bytes S) (idx + 1)).1,
       (playbackLoop se wc (S - min buffer_size_in_bytes S) (idx + 1)).2) := by
  rw [playbackLoop]
  simp [h, hc, throw_if_error_zero]

/-- One loop iteration whose write fails: the write call, one
diagnostic line, and termination through `std::exit`. -/
theorem playbackLoop_step_fail (se : Int → String) (wc : Nat → Int)
    (S idx : Nat) (h : ¬ min buffer_size_in_bytes S = 0)
    (hc : wc idx ≠ 0) :
    playbackLoop se wc S idx =
      ([Ev.writeCall (min buffer_size_in_bytes S),
        Ev.errLine (se (wc idx))], true) := by
  rw [playbackLoop]
  simp [h, throw_if_error_of_ne se _ hc]

/-- Scenario E evaluation of the playback loop: the file holds more
than one chunk, the first write succeeds and the second returns a
non-zero code, so the loop stops inside `throw_if_error`. -/
theorem playbackLoop_second_write_fails (se : Int → String)
    (wc : Nat → Int) (S : Nat) (hS : buffer_size_in_bytes < S)
    (hw0 : wc 0 = 0) (hw1 : wc 1 ≠ 0) :
    playbackLoop se wc S 0 =
      ([Ev.writeCall buffer_size_in_bytes,
        Ev.writeCall (min buffer_size_in_bytes (S - buffer_size_in_bytes)),
        Ev.errLine (se (wc 1))], true) := by
  have hc1 : ¬ min buffer_size_in_bytes S = 0 := by
    rw [buffer_size_eq] at *
    omega
  have hm1 : min buffer_size_in_bytes S = buffer_size_in_bytes := by
    rw [buffer_size_eq] at *
    omega
  have hc2 : ¬ min buffer_size_in_bytes (S - buffer_size_in_bytes) = 0 := by
    rw [buffer_size_eq] at *
    omega
  rw [playbackLoop_step_ok se wc S 0 hc1 hw0, hm1,
    playbackLoop_step_fail se wc (S - buffer_size_in_bytes) 1 hc2 hw1]

theorem writeSizes_append (l m : List Ev) :
    writeSizes (l ++ m) = writeSizes l ++ writeSizes m :=
  List.filterMap_append l m _

theorem writeSizes_map_writeCall (cs : List Nat) :
    writeSizes (cs.map Ev.writeCall) = cs := by
  induction cs with
  | nil => rfl
  | cons a l ih =>
    simp only [List.map_cons, writeSizes, List.filterMap_cons] at ih ⊢
    rw [ih]

theorem writeSizes_deviceDtor (h : Option Nat) :
    writeSizes (deviceDtor h) = [] := by
  cases h <;> rfl

theorem countP_isWrite_map (cs : List Nat) :
    (cs.map Ev.writeCall).countP isWrite = cs.length := by
  induction cs with
  | nil => rfl
  | cons a l ih => simp [List.countP_cons, isWrite, ih]

theorem countP_map_writeCall (p : Ev → Bool)
    (hp : ∀ n, p (Ev.writeCall n) = false) (cs : List Nat) :
    (cs.map Ev.writeCall).countP p = 0 := by
  rw [List.countP_eq_zero]
  intro e he
  rcases List.mem_map.mp he with ⟨n, -, rfl⟩
  simp [hp]

theorem countP_deviceDtor (p : Ev → Bool) (hp : p Ev.destroyCall = false)
    (h : Option Nat) : (deviceDtor h).countP p = 0 := by
  cases h <;> simp [deviceDtor, List.countP_cons, hp]

theorem throw_if_error_countP (se : Int → String) (c : Int) (p : Ev → Bool)
    (hp : ∀ s, p (Ev.errLine s) = false) :
    ((throw_if_error se c).1).countP p = 0 := by
  rw [List.countP_eq_zero]
  intro e he
  have h1 := mem_throw_if_error se c e he
  cases e <;> simp [isErrLine] at h1 <;> simp [hp]

theorem playbackLoop_countP (se : Int → String) (wc : Nat → Int)
    (S idx : Nat) (p : Ev → Bool)
    (hp : ∀ n, p (Ev.writeCall n) = false)
    (hp2 : ∀ s, p (Ev.errLine s) = false) :
    ((playbackLoop se wc S idx).1).countP p = 0 := by
  rw [List.countP_eq_zero]
  intro e he
  rcases playbackLoop_mem se wc S idx e he with ⟨n, rfl, -⟩ | herr
  · simp [hp]
  · cases e <;> simp [isErrLine] at herr <;> simp [hp2]

theorem throw_if_error_filter (se : Int → String) (c : Int) (p : Ev → Bool)
    (hp : ∀ s, p (Ev.errLine s) = false) :
    ((throw_if_error se c).1).filter p = [] := by
  rw [List.filter_eq_nil]
  intro e he
  have h1 := mem_throw_if_error se c e he
  cases e <;> simp [isErrLine] at h1 <;> simp [hp]

theorem playbackLoop_filter (se : Int → String) (wc : Nat → Int)
    (S idx : Nat) (p : Ev → Bool)
    (hp : ∀ n, p (Ev.writeCall n) = false)
    (hp2 : ∀ s, p (Ev.errLine s) = false) :
    ((playbackLoop se wc S idx).1).filter p = [] := by
  rw [List.filter_eq_nil]
  intro e he
  rcases playbackLoop_mem se wc S idx e he with ⟨n, rfl, -⟩ | herr
  · simp [hp]
  · cases e <;> simp [isErrLine] at herr <;> simp [hp2]

/-! ### Claim theorems -/

/-- C3: `throw_if_error` with code zero produces no output and does not
terminate; with a non-zero code it writes exactly one diagnostic line
(the backend error text) and terminates with failure before any further
backend call — in particular a write failure on the second chunk gives
exactly two write calls (one successful, one failed and reported by one
diagnostic line), failure exit, and no drain call. -/
theorem claim_C3 :
    (∀ se : Int → String, throw_if_error se 0 = ([], false)) ∧
    (∀ (se : Int → String) (c : Int), c ≠ 0 →
      throw_if_error se c = ([Ev.errLine (se c)], true)) ∧
    (∀ env : Env, env.argc = 2 → env.fileOpens = true →
      env.openCode = 0 → env.writeCode 0 = 0 → env.writeCode 1 ≠ 0 →
      buffer_size_in_bytes < env.fileSize →
      (run env).trace.countP isWrite = 2 ∧
      (run env).trace.countP isErrLine = 1 ∧
      (run env).trace.countP isDrain = 0 ∧
      (run env).exit = ExitStatus.failure) := by
  refine ⟨throw_if_error_zero, throw_if_error_of_ne,
    fun env h2 hf ho hw0 hw1 hS => ?_⟩
  have hloop := playbackLoop_second_write_fails env.strerror env.writeCode
    env.fileSize hS hw0 hw1
  unfold run
  rw [ho]
  simp [h2, hf, stream_ctor, throw_if_error_zero, hloop, List.countP_cons,
    isWrite, isErrLine, isDrain]

/-- C3 witness: a concrete two-chunk environment whose second write
returns code 5. -/
def envC3 : Env :=
  ⟨2, "a.raw", true, 100000, some 0, 0, fun i => if i = 0 then 0 else 5, 0,
   fun _ => "write failed"⟩

theorem claim_C3_witness :
    envC3.argc = 2 ∧ envC3.fileOpens = true ∧ envC3.openCode = 0 ∧
    envC3.writeCode 0 = 0 ∧ envC3.writeCode 1 ≠ 0 ∧
    buffer_size_in_bytes < envC3.fileSize ∧
    ((run envC3).trace.countP isWrite = 2 ∧
     (run envC3).trace.countP isErrLine = 1 ∧
     (run envC3).trace.countP isDrain = 0 ∧
     (run envC3).exit = ExitStatus.failure) :=
  ⟨rfl, rfl, rfl, rfl, by decide, by decide,
   claim_C3.2.2 envC3 rfl rfl rfl rfl (by decide) (by decide)⟩

/-- C4: for a valid device handle, a fully elaborated stream-guard
scope calls open exactly once and close exactly once, whether the scope
body finishes normally or by a propagating exception; the destructor is
exactly one unconditional close call, which by its type can neither
print a diagnostic nor terminate the process. -/
theorem claim_C4 (dev : Option Nat) (se : Int → String) (body : List Ev)
    (bodyThrows : Bool) (hbo : body.countP isOpen = 0)
    (hbc : body.countP isClose = 0) :
    (streamScope dev se 0 body bodyThrows).countP isOpen = 1 ∧
    (streamScope dev se 0 body bodyThrows).countP isClose = 1 ∧
    streamScope dev se 0 body true = streamScope dev se 0 body false ∧
    stream_dtor = [Ev.closeCall] := by
  unfold streamScope
  simp [stream_ctor, throw_if_error_zero, stream_dtor, List.countP_append,
    List.countP_cons, isOpen, isClose, hbo, hbc]

theorem claim_C4_witness :
    ([Ev.writeCall 4] : List Ev).countP isOpen = 0 ∧
    ([Ev.writeCall 4] : List Ev).countP isClose = 0 ∧
    ((streamScope (some 0) (fun _ => "e") 0 [Ev.writeCall 4] true).countP
        isOpen = 1 ∧
     (streamScope (some 0) (fun _ => "e") 0 [Ev.writeCall 4] true).countP
        isClose = 1 ∧
     streamScope (some 0) (fun _ => "e") 0 [Ev.writeCall 4] true =
       streamScope (some 0) (fun _ => "e") 0 [Ev.writeCall 4] false ∧
     stream_dtor = [Ev.closeCall]) :=
  ⟨by decide, by decide,
   claim_C4 (some 0) (fun _ => "e") [Ev.writeCall 4] true (by decide)
     (by decide)⟩

/-- C6 witness input: a missing file. -/
def envC6 : Env :=
  ⟨2, "missing.raw", false, 0, some 0, 0, fun _ => 0, 0, fun _ => "e"⟩

/-- C10 witness input: device creation returns a null handle. -/
def envC10 : Env :=
  ⟨2, "a.raw", true, 0, none, 0, fun _ => 0, 0, fun _ => "e"⟩

/-- C6: when the named file cannot be opened, the program prints a
diagnostic naming the file followed by the platform's last-error
description (`perror`) to `stderr`, exits with failure, and makes no
backend call. -/
theorem claim_C6 (env : Env) (h2 : env.argc = 2)
    (hf : env.fileOpens = false) :
    run env = ⟨[Ev.fopenCall,
        Ev.errLine ("Unable to load: " ++ env.filename), Ev.perrorOut],
      ExitStatus.failure⟩ ∧
    (run env).trace.countP isBackend = 0 := by
  unfold run
  simp [h2, hf, List.countP_cons, isBackend]

theorem claim_C6_witness :
    envC6.argc = 2 ∧ envC6.fileOpens = false ∧
    (run envC6 = ⟨[Ev.fopenCall,
        Ev.errLine ("Unable to load: " ++ envC6.filename), Ev.perrorOut],
      ExitStatus.failure⟩ ∧
     (run envC6).trace.countP isBackend = 0) :=
  ⟨rfl, rfl, claim_C6 envC6 rfl rfl⟩

/-- C7: a scoped device guard invokes destroy exactly once on scope
exit whatever the body did and whether or not it threw, never invokes
close, and a guard built from a null handle performs no backend call at
all on destruction. -/
theorem claim_C7 :
    (∀ (x : Nat) (body : List Ev) (bodyThrows : Bool),
      body.countP isDestroy = 0 →
      (deviceScope (some x) body bodyThrows).countP isDestroy = 1 ∧
      (deviceScope (some x) body bodyThrows).countP isClose =
        body.countP isClose ∧
      deviceScope (some x) body true = deviceScope (some x) body false) ∧
    deviceDtor none = [] ∧
    (∀ (body : List Ev) (bodyThrows : Bool),
      deviceScope none body bodyThrows = body) := by
  refine ⟨fun x body bodyThrows hb => ?_, rfl,
    fun body bodyThrows => by simp [deviceScope, deviceDtor]⟩
  simp [deviceScope, deviceDtor, List.countP_append, List.countP_cons,
    isDestroy, isClose, hb]

theorem claim_C7_witness :
    ([Ev.writeCall 8] : List Ev).countP isDestroy = 0 ∧
    ((deviceScope (some 3) [Ev.writeCall 8] true).countP isDestroy = 1 ∧
     (deviceScope (some 3) [Ev.writeCall 8] true).countP isClose =
       ([Ev.writeCall 8] : List Ev).countP isClose ∧
     deviceScope (some 3) [Ev.writeCall 8] true =
       deviceScope (some 3) [Ev.writeCall 8] false) :=
  ⟨by decide, claim_C7.1 3 [Ev.writeCall 8] true (by decide)⟩

/-- Two sequential executions of the whole program on the same input
file with identical backend responses.  The program holds no state that
survives a run (it only reads the file and releases every handle), so
the second run is the same function of the same environment. -/
def runTwice (env : Env) : Outcome × Outcome := (run env, run env)

/-- C8: running the program twice in sequence on the same input with
identical backend responses yields identical exit status and identical
output both times. -/
theorem claim_C8 (env : Env) :
    (runTwice env).1.exit = (runTwice env).2.exit ∧
    (runTwice env).1.trace = (runTwice env).2.trace :=
  ⟨rfl, rfl⟩

/-- C10: the result of `create_audio_device_object` is never checked
for null — with argument and file checks passed, a run whose device
creation returned a null handle still passes that null handle to
`audio_object_open` through the stream-guard constructor, as the first
three events show. -/
theorem claim_C10 (env : Env) (h2 : env.argc = 2)
    (hf : env.fileOpens = true) (hdev : env.deviceHandle = none) :
    (run env).trace.take 3 =
      [Ev.fopenCall, Ev.createDev none, Ev.openCall none] := by
  unfold run
  rw [hdev]
  simp only [h2, hf]
  norm_num [stream_ctor]
  split
  · simp
  · split
    · simp
    · split
      · simp
      · simp

theorem claim_C10_witness :
    envC10.argc = 2 ∧ envC10.fileOpens = true ∧
    envC10.deviceHandle = none ∧
    (run envC10).trace.take 3 =
      [Ev.fopenCall, Ev.createDev none, Ev.openCall none] :=
  ⟨rfl, rfl, rfl, claim_C10 envC10 rfl rfl rfl⟩

/-- C2: on a successful run over a file of `S` bytes with chunk
capacity `buffer_size_in_bytes`, the write calls carry exactly the
successive `fread` byte counts (no padding, no truncation), there are
`⌈S / capacity⌉` of them (zero when `S = 0`), the last write's byte
count is `S % capacity` (or the full capacity when `capacity` divides
`S` and `S > 0`), and exactly one drain call occurs, after the final
write. -/
theorem claim_C2 (env : Env) (h2 : env.argc = 2)
    (hf : env.fileOpens = true) (ho : env.openCode = 0)
    (hw : ∀ i, env.writeCode i = 0) (hd : env.drainCode = 0) :
    writeSizes (run env).trace = chunkSizes env.fileSize ∧
    (run env).trace.countP isWrite =
      (env.fileSize + buffer_size_in_bytes - 1) / buffer_size_in_bytes ∧
    (env.fileSize = 0 → (run env).trace.countP isWrite = 0) ∧
    (writeSizes (run env).trace).getLast? =
      (if env.fileSize = 0 then none
       else some (if env.fileSize % buffer_size_in_bytes = 0 then
         buffer_size_in_bytes else env.fileSize % buffer_size_in_bytes)) ∧
    (run env).trace.countP isDrain = 1 ∧
    (∃ pre post, (run env).trace = pre ++ Ev.drainCall :: post ∧
      post.countP isWrite = 0 ∧ pre.countP isDrain = 0) := by
  rw [run_ok env h2 hf ho hw hd]
  have hsizes : writeSizes ([Ev.fopenCall, Ev.createDev env.deviceHandle,
      Ev.openCall env.deviceHandle] ++
      (chunkSizes env.fileSize).map Ev.writeCall ++
      [Ev.drainCall, Ev.closeCall] ++ deviceDtor env.deviceHandle ++
      [Ev.fcloseCall]) = chunkSizes env.fileSize := by
    rw [writeSizes_append, writeSizes_append, writeSizes_append,
      writeSizes_append, writeSizes_map_writeCall, writeSizes_deviceDtor]
    simp [writeSizes]
  refine ⟨hsizes, ?_, ?_, ?_, ?_, ?_⟩
  · simp only [List.countP_append, countP_isWrite_map,
      countP_deviceDtor isWrite rfl]
    rw [chunkSizes_length]
    simp [List.countP_cons, isWrite]
  · intro h0
    simp only [List.countP_append, countP_isWrite_map,
      countP_deviceDtor isWrite rfl, h0, chunkSizes_nil]
    simp [List.countP_cons, isWrite]
  · rw [hsizes, chunkSizes_last]
  · simp only [List.countP_append, countP_map_writeCall isDrain
      (fun n => rfl), countP_deviceDtor isDrain rfl]
    simp [List.countP_cons, isDrain]
  · refine ⟨[Ev.fopenCall, Ev.createDev env.deviceHandle,
      Ev.openCall env.deviceHandle] ++
      (chunkSizes env.fileSize).map Ev.writeCall,
      Ev.closeCall :: (deviceDtor env.deviceHandle ++ [Ev.fcloseCall]),
      by simp, ?_, ?_⟩
    · simp only [List.countP_cons, List.countP_append,
        countP_deviceDtor isWrite rfl]
      simp [isWrite]
    · simp only [List.countP_append, countP_map_writeCall isDrain
        (fun n => rfl)]
      simp [List.countP_cons, isDrain]

/-- C2 witness input: a one-byte file with an all-zero backend. -/
def envC2 : Env :=
  ⟨2, "a.raw", true, 1, some 0, 0, fun _ => 0, 0, fun _ => "e"⟩

theorem claim_C2_witness :
    envC2.argc = 2 ∧ envC2.fileOpens = true ∧ envC2.openCode = 0 ∧
    envC2.drainCode = 0 ∧
    (writeSizes (run envC2).trace = chunkSizes envC2.fileSize ∧
     (run envC2).trace.countP isWrite =
       (envC2.fileSize + buffer_size_in_bytes - 1) / buffer_size_in_bytes ∧
     (envC2.fileSize = 0 → (run envC2).trace.countP isWrite = 0) ∧
     (writeSizes (run envC2).trace).getLast? =
       (if envC2.fileSize = 0 then none
        else some (if envC2.fileSize % buffer_size_in_bytes = 0 then
          buffer_size_in_bytes else envC2.fileSize % buffer_size_in_bytes)) ∧
     (run envC2).trace.countP isDrain = 1 ∧
     (∃ pre post, (run envC2).trace = pre ++ Ev.drainCall :: post ∧
       post.countP isWrite = 0 ∧ pre.countP isDrain = 0)) :=
  ⟨rfl, rfl, rfl, rfl,
   claim_C2 envC2 rfl rfl rfl (fun i => rfl) rfl⟩

/-- C9: every backend write call, in any execution, carries a byte
count of at least one — the loop breaks before writing whenever the
read count is not strictly positive. -/
theorem claim_C9 (env : Env) (n : Nat)
    (hmem : Ev.writeCall n ∈ (run env).trace) : 1 ≤ n := by
  have hdd : Ev.writeCall n ∉ deviceDtor env.deviceHandle := by
    cases env.deviceHandle <;> simp [deviceDtor]
  unfold run at hmem
  split at hmem
  · simp at hmem
  · split at hmem
    · simp at hmem
    · split at hmem
      · simp [stream_ctor] at hmem
        exact absurd (mem_throw_if_error _ _ _ hmem) (by simp [isErrLine])
      · split at hmem
        · simp [stream_ctor, List.mem_append] at hmem
          rcases hmem with hmem | hmem
          · exact absurd (mem_throw_if_error _ _ _ hmem)
              (by simp [isErrLine])
          · rcases playbackLoop_mem env.strerror env.writeCode
              env.fileSize 0 _ hmem with ⟨m, hm, hge⟩ | herr
            · cases hm
              exact hge
            · simp [isErrLine] at herr
        · split at hmem
          · simp [stream_ctor, List.mem_append] at hmem
            rcases hmem with hmem | hmem | hmem
            · exact absurd (mem_throw_if_error _ _ _ hmem)
                (by simp [isErrLine])
            · rcases playbackLoop_mem env.strerror env.writeCode
                env.fileSize 0 _ hmem with ⟨m, hm, hge⟩ | herr
              · cases hm
                exact hge
              · simp [isErrLine] at herr
            · exact absurd (mem_throw_if_error _ _ _ hmem)
                (by simp [isErrLine])
          · simp [stream_ctor, stream_dtor, fileDtor, List.mem_append,
              hdd] at hmem
            rcases hmem with hmem | hmem | hmem
            · exact absurd (mem_throw_if_error _ _ _ hmem)
                (by simp [isErrLine])
            · rcases playbackLoop_mem env.strerror env.writeCode
                env.fileSize 0 _ hmem with ⟨m, hm, hge⟩ | herr
              · cases hm
                exact hge
              · simp [isErrLine] at herr
            · exact absurd (mem_throw_if_error _ _ _ hmem)
                (by simp [isErrLine])

/-- C9 witness input: a one-byte file with an all-zero backend. -/
def envC9 : Env :=
  ⟨2, "a.raw", true, 1, some 0, 0, fun _ => 0, 0, fun _ => "e"⟩

theorem claim_C9_witness :
    Ev.writeCall 1 ∈ (run envC9).trace ∧ 1 ≤ 1 := by
  have h1 : chunkSizes (1 : Nat) = [1] := by
    rw [chunkSizes]
    norm_num [Nat.min_def, buffer_size_eq]
    rw [chunkSizes]
    norm_num [Nat.min_def, buffer_size_eq]
  have hmem : Ev.writeCall 1 ∈ (run envC9).trace := by
    rw [run_ok envC9 rfl rfl rfl (fun i => rfl) rfl]
    simp only [envC9, h1]
    simp
  exact ⟨hmem, claim_C9 envC9 1 hmem⟩

/-- C1 input: guards all fully constructed (file opened, device
created, stream opened), then the very first write returns a non-zero
backend code. -/
def envC1 : Env :=
  ⟨2, "clip.raw", true, 4, some 0, 0, fun _ => 1, 0,
   fun _ => "backend error"⟩

theorem run_envC1 : run envC1 =
    ⟨[Ev.fopenCall, Ev.createDev (some 0), Ev.openCall (some 0),
      Ev.writeCall 4, Ev.errLine "backend error"],
     ExitStatus.failure⟩ := by
  have hc : ¬ min buffer_size_in_bytes (4 : Nat) = 0 := by
    rw [buffer_size_eq]
    norm_num
  have hmin : min buffer_size_in_bytes (4 : Nat) = 4 := by
    rw [buffer_size_eq]
    norm_num [Nat.min_def]
  have hloop : playbackLoop (fun _ : Int => "backend error")
      (fun _ : Nat => (1 : Int)) 4 0 =
      ([Ev.writeCall 4, Ev.errLine "backend error"], true) := by
    have hstep := playbackLoop_step_fail (fun _ : Int => "backend error")
      (fun _ : Nat => (1 : Int)) 4 0 hc (by norm_num)
    rw [hstep, hmin]
  unfold run
  norm_num [envC1, stream_ctor, throw_if_error_zero, hloop]

/-- C1 counterexample: on this fatal-error execution every guard was
fully constructed before the failing write, yet the trace contains no
stream close, no device destroy, and no file close — `std::exit` does
not run the destructors of automatic objects, so the releases the
claim requires never happen. -/
theorem claim_C1_counterexample :
    (run envC1).trace =
      [Ev.fopenCall, Ev.createDev (some 0), Ev.openCall (some 0),
       Ev.writeCall 4, Ev.errLine "backend error"] ∧
    (run envC1).exit = ExitStatus.failure ∧
    (run envC1).trace.countP isClose = 0 ∧
    (run envC1).trace.countP isDestroy = 0 ∧
    (run envC1).trace.countP isFclose = 0 := by
  rw [run_envC1]
  exact ⟨rfl, rfl, rfl, rfl, rfl⟩

/-- C1 (amended): every execution that ends on the fatal error path
terminates through `std::exit`, which skips the destructors of the
already-constructed guards, so no release at all occurs on that path —
the stream is not closed, the device is not destroyed and the file is
not closed by the program; the releases happen (exactly once each) only
on the success path. -/
theorem claim_C1_amended (env : Env)
    (hfail : (run env).exit = ExitStatus.failure) :
    (run env).trace.countP isRelease = 0 := by
  revert hfail
  unfold run
  split
  · intro hfail
    simp at hfail
  · split
    · intro hfail
      simp [List.countP_cons, isRelease, isClose, isDestroy, isFclose]
    · split
      · intro hfail
        simp [stream_ctor, List.countP_cons,
          throw_if_error_countP _ _ isRelease (fun s => rfl),
          isRelease, isClose, isDestroy, isFclose]
      · split
        · intro hfail
          simp [stream_ctor, List.countP_cons, List.countP_append,
            throw_if_error_countP _ _ isRelease (fun s => rfl),
            playbackLoop_countP _ _ _ _ isRelease (fun n => rfl)
              (fun s => rfl),
            isRelease, isClose, isDestroy, isFclose]
        · split
          · intro hfail
            simp [stream_ctor, List.countP_cons, List.countP_append,
              throw_if_error_countP _ _ isRelease (fun s => rfl),
              playbackLoop_countP _ _ _ _ isRelease (fun n => rfl)
                (fun s => rfl),
              isRelease, isClose, isDestroy, isFclose]
          · intro hfail
            simp at hfail

theorem claim_C1_amended_witness :
    (run envC1).exit = ExitStatus.failure ∧
    (run envC1).trace.countP isRelease = 0 := by
  have hfail : (run envC1).exit = ExitStatus.failure := by
    rw [run_envC1]
  exact ⟨hfail, claim_C1_amended envC1 hfail⟩

/-- C5: in every execution the acquisition events form, in order, an
initial part of file-open, device-creation, stream-open, and the
release events form, in order, a part of stream-close, device-destroy,
file-close (strict mirror order); on a successful run with the usage
check passed, all acquisitions appear and the releases are exactly
stream-close, then the device guard's destroy (when a device handle
exists), then file-close. -/
theorem claim_C5 (env : Env) :
    List.Sublist ((run env).trace.filter isAcq)
      [Ev.fopenCall, Ev.createDev env.deviceHandle,
       Ev.openCall env.deviceHandle] ∧
    List.Sublist ((run env).trace.filter isRelease)
      [Ev.closeCall, Ev.destroyCall, Ev.fcloseCall] ∧
    ((run env).exit = ExitStatus.success → env.argc = 2 →
      (run env).trace.filter isAcq =
        [Ev.fopenCall, Ev.createDev env.deviceHandle,
         Ev.openCall env.deviceHandle] ∧
      (run env).trace.filter isRelease =
        Ev.closeCall :: (deviceDtor env.deviceHandle ++
          [Ev.fcloseCall])) := by
  have hthA := throw_if_error_filter env.strerror env.openCode isAcq
    (fun s => rfl)
  have hthA2 := throw_if_error_filter env.strerror env.drainCode isAcq
    (fun s => rfl)
  have hthR := throw_if_error_filter env.strerror env.openCode isRelease
    (fun s => rfl)
  have hthR2 := throw_if_error_filter env.strerror env.drainCode
    isRelease (fun s => rfl)
  have hlpA := playbackLoop_filter env.strerror env.writeCode
    env.fileSize 0 isAcq (fun n => rfl) (fun s => rfl)
  have hlpR := playbackLoop_filter env.strerror env.writeCode
    env.fileSize 0 isRelease (fun n => rfl) (fun s => rfl)
  have hddA : (deviceDtor env.deviceHandle).filter isAcq = [] := by
    cases env.deviceHandle <;> rfl
  have hddR : (deviceDtor env.deviceHandle).filter isRelease =
      deviceDtor env.deviceHandle := by
    cases env.deviceHandle <;> rfl
  unfold run
  split
  · next hcond =>
    refine ⟨?_, ?_, fun hs h2 => absurd h2 hcond⟩
    · simp [isAcq]
    · simp [isRelease, isClose, isDestroy, isFclose]
  · split
    · refine ⟨?_, ?_, fun hs h2 => by simp at hs⟩
      · simp [isAcq, isErrLine]
      · simp [isRelease, isClose, isDestroy, isFclose, isErrLine]
    · split
      · refine ⟨?_, ?_, fun hs h2 => by simp at hs⟩
        · simp [stream_ctor, List.filter_cons, List.filter_append,
            isAcq, hthA]
        · simp [stream_ctor, List.filter_cons, List.filter_append,
            isRelease, isClose, isDestroy, isFclose, hthR]
      · split
        · refine ⟨?_, ?_, fun hs h2 => by simp at hs⟩
          · simp [stream_ctor, List.filter_cons, List.filter_append,
              isAcq, hthA, hlpA]
          · simp [stream_ctor, List.filter_cons, List.filter_append,
              isRelease, isClose, isDestroy, isFclose, hthR, hlpR]
        · split
          · refine ⟨?_, ?_, fun hs h2 => by simp at hs⟩
            · simp [stream_ctor, List.filter_cons, List.filter_append,
                isAcq, hthA, hthA2, hlpA]
            · simp [stream_ctor, List.filter_cons, List.filter_append,
                isRelease, isClose, isDestroy, isFclose, hthR, hthR2,
                hlpR]
          · have hA : (Ev.fopenCall :: Ev.createDev env.deviceHandle ::
                (stream_ctor env.deviceHandle env.strerror
                  env.openCode).1 ++
                (playbackLoop env.strerror env.writeCode
                  env.fileSize 0).1 ++
                Ev.drainCall ::
                  (throw_if_error env.strerror env.drainCode).1 ++
                stream_dtor ++ deviceDtor env.deviceHandle ++
                fileDtor true).filter isAcq =
                [Ev.fopenCall, Ev.createDev env.deviceHandle,
                 Ev.openCall env.deviceHandle] := by
              simp [stream_ctor, stream_dtor, fileDtor,
                List.filter_cons, List.filter_append, isAcq, hthA,
                hthA2, hlpA, hddA]
            have hR : (Ev.fopenCall :: Ev.createDev env.deviceHandle ::
                (stream_ctor env.deviceHandle env.strerror
                  env.openCode).1 ++
                (playbackLoop env.strerror env.writeCode
                  env.fileSize 0).1 ++
                Ev.drainCall ::
                  (throw_if_error env.strerror env.drainCode).1 ++
                stream_dtor ++ deviceDtor env.deviceHandle ++
                fileDtor true).filter isRelease =
                Ev.closeCall :: (deviceDtor env.deviceHandle ++
                  [Ev.fcloseCall]) := by
              simp [stream_ctor, stream_dtor, fileDtor,
                List.filter_cons, List.filter_append, isRelease,
                isClose, isDestroy, isFclose, hthR, hthR2, hlpR, hddR]
            refine ⟨?_, ?_, fun hs h2 => ⟨hA, hR⟩⟩
            · rw [hA]
            · rw [hR]
              cases env.deviceHandle with
              | none =>
                exact List.Sublist.cons₂ _ (List.Sublist.cons _
                  (List.Sublist.refl _))
              | some x =>
                exact List.Sublist.refl _

/-- C5 witness input: a successful run with a real device handle. -/
def envC5 : Env :=
  ⟨2, "a.raw", true, 0, some 7, 0, fun _ => 0, 0, fun _ => "e"⟩

theorem claim_C5_witness :
    List.Sublist ((run envC5).trace.filter isAcq)
      [Ev.fopenCall, Ev.createDev envC5.deviceHandle,
       Ev.openCall envC5.deviceHandle] ∧
    List.Sublist ((run envC5).trace.filter isRelease)
      [Ev.closeCall, Ev.destroyCall, Ev.fcloseCall] ∧
    (run envC5).exit = ExitStatus.success ∧ envC5.argc = 2 ∧
    (run envC5).trace.filter isAcq =
      [Ev.fopenCall, Ev.createDev envC5.deviceHandle,
       Ev.openCall envC5.deviceHandle] ∧
    (run envC5).trace.filter isRelease =
      Ev.closeCall :: (deviceDtor envC5.deviceHandle ++
        [Ev.fcloseCall]) := by
  have hs : (run envC5).exit = ExitStatus.success := by
    rw [run_ok envC5 rfl rfl rfl (fun i => rfl) rfl]
  have h := claim_C5 envC5
  exact ⟨h.1, h.2.1, hs, rfl, (h.2.2 hs rfl).1, (h.2.2 hs rfl).2⟩

end PCAudioLibExample
